import Mathlib

/-!
Verification development for the OpenCLGA worker-side client
(`OpenCLGA/ocl_ga_client.py`): the worker command-dispatch state machine,
the run thread's message emission, device enumeration, and the worker pool.

The Python source is embedded shallowly: worker state is an explicit record,
command handlers are pure functions returning the successor state together
with their observable effects (engine invocations, outbound messages, log
events, connection operations), and Python exceptions are explicit — an
exception that escapes a function is an `Except.error`, one caught inside a
handler is a recorded flag.

The external compute engine (`OpenCLGA`, defined in `ocl_ga.py`, which is not
part of the sources embedded here) is opaque to the client; only its
interaction surface is modelled, from the specification, and each such
definition is marked `Modelled from the spec:` in its doc comment.
-/

/-- Per-generation report handed to the generation callback by the engine's
run loop. The index is the generation number; the fitness statistics
(best, average, worst) are opaque payload here. -/
structure GenData where
  index : Nat
  stats : String
deriving DecidableEq, Repr

/-- Modelled from the spec: the external compute engine (`OpenCLGA`, from
`ocl_ga.py`, not among the embedded sources). The client treats it as opaque;
we model only its interaction surface: whether its preparation step
(`ocl_ga.prepare()`) raises, the generation reports its run loop feeds to the
generation callback (zero or more, in order, before `run` returns), and the
values its read-only queries return. -/
structure Engine where
  prepareRaises : Bool
  gens : List GenData
  bestChromosome : String
  statisticsData : String
deriving DecidableEq, Repr

/-- Command payloads, as carried in the decoded message's data field.
`options b e` is a pickled engine configuration: `b` says whether engine
construction (`OpenCLGA(options)`) raises, `e` is the engine that
construction yields otherwise. `blob` is an opaque state blob for
restore/save, `probs` the mutation/crossover pair for run, `empty` no
payload. -/
inductive Payload
  | options (constructRaises : Bool) (e : Engine)
  | blob (b : String)
  | probs (pm pc : String)
  | empty
deriving DecidableEq, Repr

/-- Invocations of compute-engine methods, recorded as observable effects. -/
inductive EngineCall
  | construct
  | prepareStep
  | pauseCall
  | stopCall
  | restoreCall (p : Payload)
  | saveCall (p : Payload)
  | getTheBest
  | getStatistics
  | runLoop (pm pc : String)
deriving DecidableEq, Repr

/-- Result messages a worker emits on its single outbound channel
(`self.send`), as built at each send site in `ocl_ga_client.py`. -/
inductive OutMsg
  | device_info (name : String)
  | generation_result (g : GenData)
  | save_result
  | best_result (r : String)
  | statistics_result (r : String)
  | endMsg
deriving DecidableEq, Repr

/-- Logger events emitted through `self.logger`, plus `traceback` for the
`traceback.print_exc()` call in the dispatch handler's except clause. -/
inductive LogEvent
  | verbose (m : String)
  | info (m : String)
  | error (m : String)
  | traceback
deriving DecidableEq, Repr

/-- The mutable attributes of `OpenCLGAWorker` that the dispatch handler
reads or writes: the liveness flag, the connection handle (`self.client`),
the condition variable (`self.notifier`), and the engine instance
(`self.ocl_ga`, `None` until a prepare has assigned it). Handles are
modelled by presence (`Option Unit`). -/
structure WorkerState where
  alive : Bool
  client : Option Unit
  notifier : Option Unit
  ocl_ga : Option Engine
deriving DecidableEq, Repr

/-- Observable side effects of one dispatch-handler invocation: log events,
engine-method invocations, messages actually written to the outbound
channel, `client.shutdown()` calls, `notifier.notifyAll()` calls, and run
threads spawned. -/
structure Effects where
  logs : List LogEvent
  engineCalls : List EngineCall
  sent : List OutMsg
  shutdowns : Nat
  notifications : Nat
  runThreadsStarted : Nat
deriving DecidableEq, Repr

/-- The all-quiet effect record. -/
def Effects.none : Effects := ⟨[], [], [], 0, 0, 0⟩

/-- `OpenCLGAWorker.send`: writes to the connection only when `self.client`
is set; with no connection handle the message is silently dropped. -/
def sendMsg (client : Option Unit) (m : OutMsg) : List OutMsg :=
  if client.isSome then [m] else []

/-- The raw bytes received from the server, as seen by
`OpenCLGAWorker.process_data` before decoding. `wellFormed cmd p` stands for
bytes whose text evaluates to a mapping with a command key `cmd` and a data
key holding `p`; `malformed` stands for bytes for which decoding to ASCII,
evaluating the text, or reading the command or data key raises. -/
inductive RawMsg
  | wellFormed (cmd : String) (payload : Payload)
  | malformed
deriving DecidableEq, Repr

/-- An exception that escapes `process_data` (raised before its try block). -/
inductive DispatchErr
  | decodeRaised
deriving DecidableEq, Repr

/-- The commands gated behind a successful prepare at line 118 of
`ocl_ga_client.py`. -/
def gatedCommands : List String :=
  ["pause", "stop", "restore", "best", "save", "statistics"]

/-- Body of the try block of `OpenCLGAWorker.process_data` (lines 121-157):
dispatch on the command name. Returns the successor worker state, the
effects, and whether the body raised (any such exception is caught by the
handler's except clause). Attribute access on a `None` engine or `None`
connection raises. The prepare branch follows `create_ocl_ga` (lines
99-105): it first assigns `self.ocl_ga = OpenCLGA(options)` and only then
invokes `self.ocl_ga.prepare()`, so a raise from the preparation step lands
after the assignment. The exit branch (lines 151-155) shuts the connection
down, notifies the parked main thread and clears the liveness flag, but
never assigns `self.client`. -/
def handleCommand (s : WorkerState) (cmd : String) (payload : Payload) :
    WorkerState × Effects × Bool :=
  if cmd = "prepare" then
    match payload with
    | .options constructRaises e =>
      if constructRaises then
        (s, { Effects.none with engineCalls := [.construct] }, true)
      else
        let s1 := { s with ocl_ga := some e }
        if e.prepareRaises then
          (s1, { Effects.none with engineCalls := [.construct, .prepareStep] }, true)
        else
          (s1, ⟨[.info "oclGA prepared"], [.construct, .prepareStep], [], 0, 0, 0⟩, false)
    | _ => (s, Effects.none, true)
  else if cmd = "pause" then
    match s.ocl_ga with
    | some _ => (s, { Effects.none with engineCalls := [.pauseCall] }, false)
    | none => (s, Effects.none, true)
  else if cmd = "stop" then
    match s.ocl_ga with
    | some _ => (s, { Effects.none with engineCalls := [.stopCall] }, false)
    | none => (s, Effects.none, true)
  else if cmd = "restore" then
    match s.ocl_ga with
    | some _ => (s, { Effects.none with engineCalls := [.restoreCall payload] }, false)
    | none => (s, Effects.none, true)
  else if cmd = "save" then
    match s.ocl_ga with
    | some _ =>
      (s, ⟨[], [.saveCall payload], sendMsg s.client .save_result, 0, 0, 0⟩, false)
    | none => (s, Effects.none, true)
  else if cmd = "best" then
    match s.ocl_ga with
    | some e =>
      (s, ⟨[], [.getTheBest], sendMsg s.client (.best_result e.bestChromosome), 0, 0, 0⟩, false)
    | none => (s, Effects.none, true)
  else if cmd = "statistics" then
    match s.ocl_ga with
    | some e =>
      (s, ⟨[], [.getStatistics], sendMsg s.client (.statistics_result e.statisticsData), 0, 0, 0⟩,
       false)
    | none => (s, Effects.none, true)
  else if cmd = "run" then
    (s, { Effects.none with runThreadsStarted := 1 }, false)
  else if cmd = "exit" then
    match s.client with
    | none => (s, Effects.none, true)
    | some _ =>
      match s.notifier with
      | none => (s, { Effects.none with shutdowns := 1 }, true)
      | some _ => ({ s with alive := false }, ⟨[], [], [], 1, 1, 0⟩, false)
  else
    (s, { Effects.none with logs := [.error ("unknown command " ++ cmd)] }, false)

/-- `OpenCLGAWorker.process_data` (lines 107-159). Decoding the bytes and
reading the command and data keys happen before the try block, so a raise
there escapes the handler (`Except.error`). Then the prepare gate of line
118 rejects engine-dependent commands while `self.ocl_ga` is `None`, with a
logged error and nothing else; otherwise the try block runs `handleCommand`
and its except clause turns any raise in the body into a printed traceback. -/
def process_data (s : WorkerState) (raw : RawMsg) :
    Except DispatchErr (WorkerState × Effects) :=
  match raw with
  | .malformed => .error .decodeRaised
  | .wellFormed cmd payload =>
    let logs0 : List LogEvent := [.verbose ("cmd received = " ++ cmd)]
    if cmd ∈ gatedCommands ∧ s.ocl_ga = none then
      .ok (s, ⟨logs0 ++ [.error ("Cmd " ++ cmd ++ " will only be processed after prepared")],
               [], [], 0, 0, 0⟩)
    else
      let r := handleCommand s cmd payload
      let tb : List LogEvent := if r.2.2 then [.traceback] else []
      .ok (r.1, { r.2.1 with logs := logs0 ++ r.2.1.logs ++ tb })

/-- `OpenCLGAWorker.run_ocl_ga` (lines 92-97), the body of the run thread:
logs, invokes the engine's run loop, then sends the end message. The engine
run loop is modelled from the spec: it invokes the generation callback
(`send_and_dump_info`, lines 85-90) once per generation report, in order,
and then returns; each callback logs and sends a `generation_result`
message. On a worker whose `self.ocl_ga` is still `None` the attribute
access raises inside the thread (`Except.error`). Returns the log events
and the messages written to the outbound channel, in emission order. -/
def run_ocl_ga (s : WorkerState) (pm pc : String) :
    Except Unit (List LogEvent × List OutMsg) :=
  match s.ocl_ga with
  | none => .error ()
  | some e =>
    .ok (LogEvent.info ("oclGA run with " ++ pm ++ "/" ++ pc) ::
           e.gens.map (fun g => .verbose (toString g.index)),
         (e.gens.map (fun g => sendMsg s.client (.generation_result g))).flatten
           ++ sendMsg s.client .endMsg)

/-- `query_devices` (lines 18-28) on a machine whose platform layout is
`counts` (one entry per platform, the entry being that platform's device
count): the data list built by the nested loops, `(pidx, didx)` for each
platform index in order and each device index in order. As a pure function
of the platform layout it is deterministic by construction. -/
def query_devices_data (counts : List Nat) : List (Nat × Nat) :=
  (List.range counts.length).flatMap
    (fun pidx => (List.range (counts.getD pidx 0)).map (fun didx => (pidx, didx)))

/-- `query_devices` including its line-21 quirk: it indexes `platforms[0]`
before the loops, so with zero platforms it raises IndexError and sends
nothing (`none`); otherwise it sends the data list over the pipe. -/
def query_devices (counts : List Nat) : Option (List (Nat × Nat)) :=
  if counts.isEmpty then none else some (query_devices_data counts)

/-- Strict ordering on (platform index, device index) pairs: platform index
ascending, then device index ascending. -/
def devLexLt (a b : Nat × Nat) : Prop :=
  a.1 < b.1 ∨ (a.1 = b.1 ∧ a.2 < b.2)

/-- `OpenCLGAClient.create_workers_for_devices` + `__fork_process` (lines
171-187): one worker per enumerated device, in enumeration order; the
worker records its (platform index, device index). -/
def create_workers_for_devices (device_list : List (Nat × Nat)) : List (Nat × Nat) :=
  device_list.map (fun dev => (dev.1, dev.2))

/-- `OpenCLGAClient.is_alive` (lines 203-207): starts from `True` and folds
conjunction of every worker's process liveness over the pool's worker list. -/
def is_alive (workers : List Bool) : Bool :=
  workers.foldl (fun alive w => alive && w) true

/-- `OpenCLGAClient.stop_workers` (lines 193-197): terminates every worker
then replaces the worker list by the empty list. Returns the new worker
list and the number of `terminate()` calls issued. -/
def stop_workers (workers : List Bool) : List Bool × Nat :=
  ([], workers.length)

/-- The driving loop of `start_ocl_ga_client` (lines 214-219) breaks out of
its while-True only at a poll where `is_alive()` is false. Given the pool's
liveness trace (worker list at each poll), this decides whether the loop
has broken within the first `fuel` polls. -/
def client_loop_breaks_within (trace : Nat → List Bool) (fuel : Nat) : Bool :=
  (List.range fuel).any (fun n => !(is_alive (trace n)))

/-- Recognizer for generation-progress messages. -/
def is_generation_result : OutMsg → Bool
  | .generation_result _ => true
  | _ => false

/-- A connected worker that has not yet been prepared: alive, holding a
connection and the condition variable set up by `run`, with `self.ocl_ga`
still `None`. -/
def idleState : WorkerState := ⟨true, some (), some (), none⟩

/-- An engine whose preparation step (`ocl_ga.prepare()`) raises. -/
def failingEngine : Engine := ⟨true, [], "", ""⟩

/-- The worker after a prepare whose preparation step raised: the engine
instance was assigned before the raise, so it is retained. -/
def engineRetainedState : WorkerState := ⟨true, some (), some (), some failingEngine⟩

/-- The worker after its first exit command: liveness flag cleared, but the
connection handle still present. -/
def afterExitState : WorkerState := ⟨false, some (), some (), none⟩

/-- A concrete engine whose run loop reports two generations. -/
def sampleEngine : Engine := ⟨false, [⟨0, "a"⟩, ⟨1, "b"⟩], "chromosome", "stats"⟩

/-- A connected worker successfully prepared with `sampleEngine`. -/
def preparedState : WorkerState := ⟨true, some (), some (), some sampleEngine⟩

/-! Helper lemmas shared by the claim theorems. -/

theorem foldl_and_eq_all (l : List Bool) :
    ∀ b : Bool, l.foldl (fun alive w => alive && w) b = (b && l.all (fun w => w)) := by
  induction l with
  | nil => intro b; simp
  | cons x xs ih => intro b; rw [List.foldl_cons, ih, List.all_cons, Bool.and_assoc]

theorem flatten_map_singleton {α β : Type} (f : α → List β) (l : List α) :
    (l.map f).flatten = l.flatMap f := by
  induction l with
  | nil => rfl
  | cons x xs ih => simp [ih]

theorem loop_never_breaks_on_empty_trace (fuel : Nat) :
    client_loop_breaks_within (fun _ => []) fuel = false := by
  simp [client_loop_breaks_within, is_alive]

/-- C6: for every pool state, `is_alive()` returns the logical AND of the
liveness of all Workers in the pool: it equals the conjunction over the
worker list, it is true iff every Worker process is alive, and it is false
exactly when some Worker has terminated. -/
theorem is_alive_and_semantics (workers : List Bool) :
    is_alive workers = workers.all (fun w => w) ∧
    (is_alive workers = true ↔ ∀ w ∈ workers, w = true) ∧
    (is_alive workers = false ↔ ∃ w ∈ workers, w = false) := by
  have h : is_alive workers = workers.all (fun w => w) := by
    unfold is_alive
    rw [foldl_and_eq_all, Bool.true_and]
  refine ⟨h, ?_, ?_⟩
  · rw [h]
    simp [List.all_eq_true]
  · rw [h]
    simp [List.all_eq_false]

/-- C8: for every pool, after `stop_workers` returns, the pool's worker
collection is empty (and one `terminate()` was issued per previous worker). -/
theorem stop_workers_empties_pool (workers : List Bool) :
    (stop_workers workers).1 = [] ∧ (stop_workers workers).2 = workers.length :=
  ⟨rfl, rfl⟩

/-- C9: decoding of the received bytes and the lookup of the command and
data keys happen before the exception guard of the dispatch handler, so a
message for which they raise escapes `process_data` as an uncaught
exception — no rejection is logged, no state change, no effect recorded. -/
theorem malformed_message_escapes_dispatch (s : WorkerState) :
    process_data s RawMsg.malformed = Except.error DispatchErr.decodeRaised :=
  rfl

/-- C10: `is_alive()` on a pool whose worker collection is empty returns
true (vacuous AND); in particular, immediately after `stop_workers` has
cleared the worker list, `is_alive` reports the pool as alive. -/
theorem is_alive_vacuously_true_on_empty_pool :
    is_alive [] = true ∧ ∀ workers : List Bool, is_alive (stop_workers workers).1 = true :=
  ⟨rfl, fun _ => rfl⟩

/-- C5 counterexample: with an empty device enumeration, the pool is
created with no workers, yet `is_alive()` is true and the driving loop's
break condition never fires (shown for a million polls): startup does not
abort and the process keeps polling an empty pool. -/
theorem no_devices_startup_counterexample :
    create_workers_for_devices [] = [] ∧
    is_alive [] = true ∧
    client_loop_breaks_within (fun _ => []) 1000000 = false :=
  ⟨rfl, rfl, loop_never_breaks_on_empty_trace 1000000⟩

/-- C5 amended: if device enumeration returns no devices, pool startup does
not abort: the pool is created with an empty worker list, the pool reports
itself alive (vacuous AND), and the driving loop's exit condition holds at
no poll, so the embedding process keeps running with an empty Worker pool. -/
theorem no_devices_empty_pool_keeps_running (fuel : Nat) :
    create_workers_for_devices [] = [] ∧
    is_alive [] = true ∧
    client_loop_breaks_within (fun _ => []) fuel = false :=
  ⟨rfl, rfl, loop_never_breaks_on_empty_trace fuel⟩

/-- C1: every command in the gated set {pause, stop, restore, best, save,
statistics}, received by a Worker whose compute-engine instance has not yet
been created, is rejected at the prepare gate: the state is returned
unchanged, no engine method is invoked, no message is emitted, no
connection operation happens, and the rejection is logged. -/
theorem gated_command_rejected_when_unprepared (s : WorkerState) (cmd : String) (p : Payload)
    (hc : cmd ∈ gatedCommands) (h : s.ocl_ga = none) :
    process_data s (.wellFormed cmd p) =
      .ok (s, ⟨[.verbose ("cmd received = " ++ cmd),
                .error ("Cmd " ++ cmd ++ " will only be processed after prepared")],
               [], [], 0, 0, 0⟩) := by
  unfold process_data
  dsimp only
  rw [if_pos ⟨hc, h⟩]
  rfl

/-- C1 witness: the pause command at the concrete idle worker is rejected
with only the two log events. -/
theorem gated_command_rejected_witness :
    "pause" ∈ gatedCommands ∧ idleState.ocl_ga = none ∧
    process_data idleState (.wellFormed "pause" .empty) =
      .ok (idleState, ⟨[.verbose ("cmd received = " ++ "pause"),
                        .error ("Cmd " ++ "pause" ++ " will only be processed after prepared")],
                       [], [], 0, 0, 0⟩) :=
  ⟨by decide, rfl,
   gated_command_rejected_when_unprepared idleState "pause" .empty (by decide) rfl⟩

/-- C3 counterexample: at the concrete idle worker, a prepare whose engine
preparation step raises is caught and logged (traceback), but the worker
does not remain engine-free: the engine instance assigned before the raise
is retained, and a subsequent pause is forwarded to that engine instead of
being rejected. -/
theorem prepare_failure_retains_engine_counterexample :
    process_data idleState (.wellFormed "prepare" (.options false failingEngine)) =
      .ok (engineRetainedState,
           ⟨[.verbose ("cmd received = " ++ "prepare"), .traceback],
            [.construct, .prepareStep], [], 0, 0, 0⟩) ∧
    engineRetainedState.ocl_ga = some failingEngine ∧
    process_data engineRetainedState (.wellFormed "pause" .empty) =
      .ok (engineRetainedState,
           ⟨[.verbose ("cmd received = " ++ "pause")], [.pauseCall], [], 0, 0, 0⟩) :=
  ⟨rfl, rfl, rfl⟩

/-- C3 amended: an exception raised while executing the prepare handler is
caught and logged (traceback) and the Worker survives. When the exception
comes from engine construction, the Worker still holds no compute-engine
instance; but when the engine's preparation step raises, the instance
assigned just before is retained, so engine-dependent commands are no
longer rejected afterwards. -/
theorem prepare_exception_caught (s : WorkerState) (e : Engine) (_idle : s.ocl_ga = none)
    (hp : e.prepareRaises = true) :
    process_data s (.wellFormed "prepare" (.options true e)) =
      .ok (s, ⟨[.verbose ("cmd received = " ++ "prepare"), .traceback],
               [.construct], [], 0, 0, 0⟩) ∧
    process_data s (.wellFormed "prepare" (.options false e)) =
      .ok ({ s with ocl_ga := some e },
           ⟨[.verbose ("cmd received = " ++ "prepare"), .traceback],
            [.construct, .prepareStep], [], 0, 0, 0⟩) := by
  constructor
  · rfl
  · unfold process_data handleCommand
    dsimp only
    rw [hp]
    rfl

/-- C3 witness: both prepare-failure cases evaluated at the concrete idle
worker and the concrete engine whose preparation step raises. -/
theorem prepare_exception_caught_witness :
    idleState.ocl_ga = none ∧ failingEngine.prepareRaises = true ∧
    (process_data idleState (.wellFormed "prepare" (.options true failingEngine)) =
      .ok (idleState, ⟨[.verbose ("cmd received = " ++ "prepare"), .traceback],
                       [.construct], [], 0, 0, 0⟩) ∧
     process_data idleState (.wellFormed "prepare" (.options false failingEngine)) =
      .ok ({ idleState with ocl_ga := some failingEngine },
           ⟨[.verbose ("cmd received = " ++ "prepare"), .traceback],
            [.construct, .prepareStep], [], 0, 0, 0⟩)) :=
  ⟨rfl, rfl, prepare_exception_caught idleState failingEngine rfl rfl⟩

/-- C4 counterexample: at the concrete connected worker, the first exit
shuts the connection down once but leaves the connection handle set
(`client` is still present afterwards), and a second exit is not a no-op:
it invokes `client.shutdown()` and `notifier.notifyAll()` again, with
exactly the same observable effects as the first. -/
theorem exit_not_idempotent_counterexample :
    process_data idleState (.wellFormed "exit" .empty) =
      .ok (afterExitState, ⟨[.verbose ("cmd received = " ++ "exit")], [], [], 1, 1, 0⟩) ∧
    afterExitState.client = some () ∧
    process_data afterExitState (.wellFormed "exit" .empty) =
      .ok (afterExitState, ⟨[.verbose ("cmd received = " ++ "exit")], [], [], 1, 1, 0⟩) :=
  ⟨rfl, rfl, rfl⟩

/-- C4 amended: the exit branch of the dispatch handler closes the
connection, notifies the parked main thread and clears the liveness flag,
but it never clears the connection handle; a second exit therefore repeats
the shutdown and notification with the same observable effects as the
first (the only state change, clearing the liveness flag, happened on the
first exit). -/
theorem exit_repeats_shutdown (s : WorkerState)
    (h1 : s.client = some ()) (h2 : s.notifier = some ()) :
    process_data s (.wellFormed "exit" .empty) =
      .ok ({ s with alive := false },
           ⟨[.verbose ("cmd received = " ++ "exit")], [], [], 1, 1, 0⟩) ∧
    ({ s with alive := false }).client = some () ∧
    process_data { s with alive := false } (.wellFormed "exit" .empty) =
      .ok ({ s with alive := false },
           ⟨[.verbose ("cmd received = " ++ "exit")], [], [], 1, 1, 0⟩) := by
  refine ⟨?_, h1, ?_⟩
  · unfold process_data handleCommand
    dsimp only
    rw [h1, h2]
    rfl
  · unfold process_data handleCommand
    dsimp only
    rw [show ({ s with alive := false } : WorkerState).client = some () from h1,
        show ({ s with alive := false } : WorkerState).notifier = some () from h2]
    rfl

/-- C4 witness: the two successive exits evaluated at the concrete
connected worker: the handle survives the first exit and the second exit
shuts the connection down again. -/
theorem exit_repeats_shutdown_witness :
    idleState.client = some () ∧ idleState.notifier = some () ∧
    (process_data idleState (.wellFormed "exit" .empty) =
      .ok ({ idleState with alive := false },
           ⟨[.verbose ("cmd received = " ++ "exit")], [], [], 1, 1, 0⟩) ∧
     ({ idleState with alive := false }).client = some () ∧
     process_data { idleState with alive := false } (.wellFormed "exit" .empty) =
      .ok ({ idleState with alive := false },
           ⟨[.verbose ("cmd received = " ++ "exit")], [], [], 1, 1, 0⟩)) :=
  ⟨rfl, rfl, exit_repeats_shutdown idleState rfl rfl⟩

theorem flatten_map_pure {α β : Type} (f : α → β) (l : List α) :
    (l.map (fun a => [f a])).flatten = l.map f := by
  induction l with
  | nil => rfl
  | cons x xs ih => simp [ih]

/-- C2: on a prepared, connected worker, the run command's issuance starts
the run thread and itself emits nothing; the run thread's body emits the
engine's generation reports as generation_result messages followed by
exactly one end message: every message before the last is a
generation_result, the last message is end, and end occurs exactly once —
nothing is emitted by the run after end. -/
theorem run_emits_generations_then_one_end (s : WorkerState) (e : Engine) (pm pc : String)
    (he : s.ocl_ga = some e) (hc : s.client = some ()) :
    process_data s (.wellFormed "run" (.probs pm pc)) =
      .ok (s, ⟨[.verbose ("cmd received = " ++ "run")], [], [], 0, 0, 1⟩) ∧
    run_ocl_ga s pm pc =
      .ok (.info ("oclGA run with " ++ pm ++ "/" ++ pc) ::
             e.gens.map (fun g => .verbose (toString g.index)),
           e.gens.map OutMsg.generation_result ++ [OutMsg.endMsg]) ∧
    (e.gens.map OutMsg.generation_result ++ [OutMsg.endMsg]).dropLast.all
        is_generation_result = true ∧
    (e.gens.map OutMsg.generation_result ++ [OutMsg.endMsg]).getLast? = some OutMsg.endMsg ∧
    (e.gens.map OutMsg.generation_result ++ [OutMsg.endMsg]).count OutMsg.endMsg = 1 := by
  refine ⟨?_, ?_, ?_, ?_, ?_⟩
  · rfl
  · unfold run_ocl_ga
    rw [he]
    dsimp only
    rw [hc]
    simp only [sendMsg, Option.isSome_some, if_true, flatten_map_pure]
  · rw [List.dropLast_concat]
    simp [is_generation_result]
  · exact List.getLast?_concat _
  · rw [List.count_append]
    have h0 : (e.gens.map OutMsg.generation_result).count OutMsg.endMsg = 0 := by
      rw [List.count_eq_zero]
      simp
    rw [h0]
    rfl

/-- C2 witness: the run issuance and the run thread's emissions evaluated
at the concrete prepared worker whose engine reports two generations. -/
theorem run_emits_generations_witness :
    preparedState.ocl_ga = some sampleEngine ∧ preparedState.client = some () ∧
    (process_data preparedState (.wellFormed "run" (.probs "0.1" "0.8")) =
      .ok (preparedState, ⟨[.verbose ("cmd received = " ++ "run")], [], [], 0, 0, 1⟩) ∧
     run_ocl_ga preparedState "0.1" "0.8" =
      .ok (.info ("oclGA run with " ++ "0.1" ++ "/" ++ "0.8") ::
             sampleEngine.gens.map (fun g => .verbose (toString g.index)),
           sampleEngine.gens.map OutMsg.generation_result ++ [OutMsg.endMsg]) ∧
     (sampleEngine.gens.map OutMsg.generation_result ++ [OutMsg.endMsg]).dropLast.all
        is_generation_result = true ∧
     (sampleEngine.gens.map OutMsg.generation_result ++ [OutMsg.endMsg]).getLast? =
        some OutMsg.endMsg ∧
     (sampleEngine.gens.map OutMsg.generation_result ++ [OutMsg.endMsg]).count
        OutMsg.endMsg = 1) :=
  ⟨rfl, rfl, run_emits_generations_then_one_end preparedState sampleEngine "0.1" "0.8" rfl rfl⟩

theorem devLexLt_ne {a b : Nat × Nat} (h : devLexLt a b) : a ≠ b := by
  intro heq
  subst heq
  rcases h with h | ⟨_, h⟩
  · exact lt_irrefl _ h
  · exact lt_irrefl _ h

/-- C7: device enumeration is deterministic and duplicate-free. The data
list is a pure function of the platform layout, so for an unchanged device
set every call yields the same sequence; the sequence is strictly ordered
by platform index ascending and then device index ascending (hence no pair
appears twice), and `query_devices` sends exactly that list whenever at
least one platform exists. -/
theorem query_devices_ordered_and_nodup (counts : List Nat) :
    List.Pairwise devLexLt (query_devices_data counts) ∧
    (query_devices_data counts).Nodup ∧
    query_devices counts =
      (if counts.isEmpty then none else some (query_devices_data counts)) := by
  have hp : List.Pairwise devLexLt (query_devices_data counts) := by
    unfold query_devices_data
    rw [List.pairwise_flatMap]
    constructor
    · intro pidx _
      rw [List.pairwise_map]
      refine (List.pairwise_lt_range _).imp ?_
      intro a b h
      exact Or.inr ⟨rfl, h⟩
    · refine (List.pairwise_lt_range _).imp ?_
      intro a b hab x hx y hy
      rcases List.mem_map.mp hx with ⟨dx, _, rfl⟩
      rcases List.mem_map.mp hy with ⟨dy, _, rfl⟩
      exact Or.inl hab
  exact ⟨hp, hp.imp devLexLt_ne, rfl⟩
